import Mathlib

/-!
Verification of the mcp-instana server against its specification.

Shallow embedding of the relevant Python code:
  * `src/mcp_instana/main.py` — `validate_credentials`, the help-flag
    handling and the stdio credential check in `main`;
  * `src/mcp_instana/server.py` — `_safe_dump`, `LoggingMiddleware.on_message`,
    `TagBasedToolFilterMiddleware.on_list_tools`, `run`;
  * `src/mcp_instana/tools/trending/top_performance.py` —
    `list_top_applications_by_performance`.

Python `str | None` values become `Option String`; Python truthiness of a
string (`not s` is true exactly on the empty string) is modelled explicitly.
Exceptions become explicit outcome constructors.
-/

namespace McpInstana

/-! ### main.py : validate_credentials -/

/-- Python truthiness of a string: empty is falsy. -/
def strTruthy (s : String) : Bool := s != ""

/-- `os.getenv(name) or ""`: a missing variable becomes the empty string. -/
def getenvOrEmpty (v : Option String) : String := v.getD ""

/-- Embedding of `validate_credentials` (main.py lines 25–30):
`token = os.getenv("INSTANA_API_TOKEN") or ""`,
`base_url = os.getenv("INSTANA_BASE_URL") or ""`,
`return not (not token or not base_url)`.
Arguments are the raw environment values (None when unset). -/
def validate_credentials (tokenEnv baseUrlEnv : Option String) : Bool :=
  let token := getenvOrEmpty tokenEnv
  let base_url := getenvOrEmpty baseUrlEnv
  !(!strTruthy token || !strTruthy base_url)

/-! ### main.py : help-flag handling in `main` -/

/-- The help spellings recognised by `main` (main.py lines 67–71). -/
def helpFlags : List String := ["-h", "--h", "--help", "-help"]

/-- What `main` does with a command line, restricted to the help-flag
pre-parse block (main.py lines 66–104).  `argv` models `sys.argv[1:]`.
`helpDisplayFails` models whether the help-printing loop raises.
Result: `some code` when the process exits inside this block with that
status, `none` when control continues to argument parsing and startup. -/
def mainHelpOutcome (argv : List String) (helpDisplayFails : Bool) : Option Nat :=
  if argv.length > 0 ∧ argv.any (fun a => helpFlags.contains a) then
    let other_args := argv.filter (fun a => !helpFlags.contains a)
    if other_args ≠ [] then
      some 2
    else
      -- help is shown inside try/except; both paths call sys.exit(0)
      if helpDisplayFails then some 0 else some 0
  else
    none

/-! ### main.py : stdio credential check in `main` -/

/-- The startup credential gate in `main` (main.py lines 114–121):
after parsing, if the transport is "stdio" or unspecified and
`validate_credentials()` is false, the process exits with status 1
before `server.run` is reached.  Result: `some 1` when the process
exits at this gate, `none` when startup proceeds to `server.run`. -/
def stdioCredentialGate (transport : Option String)
    (tokenEnv baseUrlEnv : Option String) : Option Nat :=
  if transport = some "stdio" ∨ transport = none then
    if ¬ validate_credentials tokenEnv baseUrlEnv then some 1 else none
  else
    none

/-! ### server.py : _safe_dump -/

/-- Python `s[:n]`: the first `n` characters (code points) of `s`. -/
def strSlice (s : String) (n : Nat) : String := ⟨s.data.take n⟩

/-- Embedding of `_safe_dump` (server.py lines 26–36).  The two fallible
conversions `json.dumps(obj, default=str)` and `str(obj)` are modelled by
their outcomes: `none` means the conversion raised.  Python `len(s)` is
the number of characters, i.e. `String.length`. -/
def safe_dump (jsonRepr strRepr : Option String) (max_len : Nat) : String :=
  let s :=
    match jsonRepr with
    | some s => s
    | none =>
      match strRepr with
      | some s => s
      | none => "<unserializable>"
  if s.length > max_len then strSlice s max_len ++ "...(truncated)" else s

/-! ### server.py : TagBasedToolFilterMiddleware.on_list_tools -/

/-- A registered tool as the middleware sees it: only the tags matter. -/
structure ToolDesc where
  name : String
  tags : List String
deriving DecidableEq, Repr

/-- Python `bool(set(cats) & set(tool.tags))`: the two tag collections
intersect. -/
def tagsIntersect (cats tags : List String) : Bool :=
  cats.any (fun c => tags.contains c)

/-- Embedding of `TagBasedToolFilterMiddleware.on_list_tools`
(server.py lines 99–117), applied to the downstream result.
`categories` models `settings.global_tool_categories` (None when no
`--tools` filter was configured).  `if not settings.global_tool_categories`
is Python truthiness: None and the empty list both pass the list through. -/
def on_list_tools (categories : Option (List String))
    (result : List ToolDesc) : List ToolDesc :=
  match categories with
  | none => result
  | some cats =>
    if cats.isEmpty then result
    else result.filter (fun tool => tagsIntersect cats tool.tags)

/-! ### server.py : run -/

/-- One middleware registration made by `run`, with the parameters the
source passes (server.py lines 120–141). -/
inductive MiddlewareReg where
  | logging
  | tagBasedToolFilter
  | rateLimiting (max_requests_per_second : Nat) (burst_capacity : Nat)
  | retry (max_retries : Nat) (retriesOnConnectionError : Bool)
      (retriesOnTimeoutError : Bool)
deriving DecidableEq, Repr

/-- The transport `run` finally starts (server.py lines 143–148). -/
inductive TransportStart where
  | stdio
  | http (host : String) (port : Nat)
deriving DecidableEq, Repr

/-- Embedding of `run` (server.py lines 120–148): the ordered list of
middleware registrations performed before the transport starts, and the
transport started.  `mode` is `args.transport` (None when the flag was
not given). -/
def run (mode : Option String) (port : Nat) :
    List MiddlewareReg × TransportStart :=
  ([ MiddlewareReg.logging,
     MiddlewareReg.tagBasedToolFilter,
     MiddlewareReg.rateLimiting 100 20,
     MiddlewareReg.retry 3 true true ],
   if mode = some "streamable-http" then TransportStart.http "0.0.0.0" port
   else TransportStart.stdio)

/-! ### server.py : LoggingMiddleware.on_message -/

/-- Embedding of `LoggingMiddleware.on_message` (server.py lines 43–94).
The pre-dispatch inspection/logging block is wrapped in
`try ... except Exception`, whose handler only logs; the completion-logging
block is wrapped in `try ... except: pass`; the downstream call
`await call_next(context)` sits in a `try/finally` whose `finally` only
computes the elapsed time (it neither swallows nor replaces the exception).
`preLogRaises` / `postLogRaises` model whether those logging blocks raise.
`callNextStream` supplies one downstream outcome per invocation of
`call_next`; the returned remainder shows how many elements were consumed,
i.e. how many times `call_next` was invoked.  The overall outcome is
`none` only in the impossible case of an exhausted stream. -/
def on_message (E R : Type) (preLogRaises postLogRaises : Bool)
    (callNextStream : List (Except E R)) :
    Option (Except E R) × List (Except E R) :=
  -- pre-dispatch logging: any exception is caught and itself logged
  let _ := preLogRaises
  match callNextStream with
  | [] => (none, [])
  | d :: rest =>
    match d with
    | .error e =>
      -- finally: compute elapsed; the downstream exception propagates
      (some (.error e), rest)
    | .ok r =>
      -- completion logging: any exception is swallowed by `except: pass`
      let _ := postLogRaises
      (some (.ok r), rest)

/-! ### tools/trending/top_performance.py : list_top_applications_by_performance -/

/-- The `timeFrame` sub-object of the request dict
(top_performance.py line 56). -/
structure TimeFrame where
  «to» : Nat
  windowSize : Option Nat
deriving DecidableEq, Repr

/-- One entry of the `metrics` list in the request dict
(top_performance.py line 55). -/
structure MetricSpec where
  aggregation : Option String
  metric : Option String
deriving DecidableEq, Repr

/-- The `get_application_metrics` request dict passed to
`get_application_data_metrics_v2` (top_performance.py lines 52–57). -/
structure GetApplicationMetrics where
  includeInternal : Bool
  includeSynthetic : Bool
  metrics : List MetricSpec
  timeFrame : TimeFrame
deriving DecidableEq, Repr

/-- Outcome of one invocation of the tool body.  `unboundLocalError` is
Python's error on reading a local variable that was never assigned;
`attributeError` is Python's error on `None.error(...)`. -/
inductive ToolOutcome (α : Type) where
  | ok (result : α)
  | toolError (msg : String)
  | unboundLocalError (varName : String)
  | attributeError
deriving DecidableEq, Repr

/-- One run of the tool: the request that reached the external API, if any,
and the outcome. -/
structure ToolRun (α : Type) where
  requestSent : Option GetApplicationMetrics
  outcome : ToolOutcome α
deriving DecidableEq, Repr

/-- The Python signature default for `duration_ms`
(top_performance.py line 29): `60 * 60 * 1000`, applied when the caller
omits the argument. -/
def durationDefault : Option Nat := some (60 * 60 * 1000)

/-- Embedding of `list_top_applications_by_performance`
(top_performance.py lines 26–80).  `nowMs` is
`int(datetime.now(timezone.utc).timestamp() * 1000)`; `ctxPresent` is
whether `ctx` is not None; `api` is
`api_client_instance.get_application_data_metrics_v2` followed by
`.to_dict()`, raising (`Except.error` with the exception text) on failure.
The local `to_time` is assigned only in the `to_time_ms is None` branch
(lines 47–49); the request dict (lines 52–57) reads `to_time`
unconditionally, so with `to_time_ms` provided the dict build raises
`UnboundLocalError` before any API call.  On an API exception the handler
(lines 68–80) logs, calls `ctx.error(...)` unconditionally — raising
`AttributeError` when `ctx` is None — and only then raises the ToolError. -/
def list_top_applications_by_performance (α : Type) (nowMs : Nat)
    (metric : Option String) (to_time_ms : Option Nat)
    (duration_ms : Option Nat) (top_n : Option Nat)
    (aggregation : Option String) (order : Option String)
    (ctxPresent : Bool)
    (api : GetApplicationMetrics → Except String α) : ToolRun α :=
  let _ := top_n   -- accepted but never used by the body
  let _ := order   -- accepted but never used by the body
  let to_time : Option Nat :=
    if to_time_ms = none then some nowMs else none
  match to_time with
  | none =>
    -- building the dict reads the unassigned local `to_time`
    { requestSent := none, outcome := .unboundLocalError "to_time" }
  | some t =>
    let get_application_metrics : GetApplicationMetrics :=
      { includeInternal := true
        includeSynthetic := true
        metrics := [{ aggregation := aggregation, metric := metric }]
        timeFrame := { «to» := t, windowSize := duration_ms } }
    match api get_application_metrics with
    | .ok result => { requestSent := some get_application_metrics, outcome := .ok result }
    | .error e =>
      if ctxPresent then
        { requestSent := some get_application_metrics,
          outcome := .toolError
            ("Instana API call [get_application_data_metrics_v2] error: " ++ e) }
      else
        -- `await ctx.error(...)` with ctx = None raises before the ToolError
        { requestSent := some get_application_metrics, outcome := .attributeError }

/-! ### Retry stage (fastmcp RetryMiddleware), modelled from the spec -/

/-- Exception kinds distinguished by the retry stage's configuration. -/
inductive ExcKind where
  | connectionError
  | timeoutError
  | other (name : String)
deriving DecidableEq, Repr

/-- `retry_exceptions=(ConnectionError, TimeoutError)` — the kinds the
configuration in `run` (server.py line 140) marks as retryable. -/
def isRetryableExc : ExcKind → Bool
  | .connectionError => true
  | .timeoutError => true
  | .other _ => false

/-- Modelled from the spec: the retry stage itself is fastmcp's
`RetryMiddleware`, library code not in this repository; `run` only
configures it with `max_retries=3` and
`retry_exceptions=(ConnectionError, TimeoutError)` (server.py lines
139–141).  Per the spec (§4.3 stage 4), on a connection or timeout error
it retries up to `retriesLeft` more times with exponential backoff between
attempts; other exception kinds propagate immediately without retry.
`outcomes k` is the result of attempt `k` (0-based); the result pairs the
surfaced outcome with the total number of attempts made, starting after
`attempted` attempts have already happened. -/
def retryStage (α : Type) (retryable : ExcKind → Bool) :
    Nat → (Nat → Except ExcKind α) → Nat → Except ExcKind α × Nat
  | retriesLeft, outcomes, attempted =>
    match outcomes attempted with
    | .ok r => (.ok r, attempted + 1)
    | .error e =>
      if retryable e then
        match retriesLeft with
        | 0 => (.error e, attempted + 1)
        | n + 1 => retryStage α retryable n outcomes (attempted + 1)
      else (.error e, attempted + 1)

/-- The retry stage as configured by `run`: `max_retries=3`,
retryable kinds per `isRetryableExc`. -/
def configuredRetry (α : Type) (outcomes : Nat → Except ExcKind α) :
    Except ExcKind α × Nat :=
  retryStage α isRetryableExc 3 outcomes 0

/-- Modelled from the spec: exponential backoff — the delay before
retry `k` (0-based) doubles with each retry. -/
def backoffDelayMs (baseMs k : Nat) : Nat := baseMs * 2 ^ k

/-! ## Helper lemmas -/

theorem string_length_append (a b : String) :
    (a ++ b).length = a.length + b.length := by
  cases a with
  | mk l =>
    cases b with
    | mk m =>
      show (String.mk (l ++ m)).length = _
      simp

theorem strSlice_length (s : String) (n : Nat) :
    (strSlice s n).length = min n s.length := by
  cases s with
  | mk l => simp [strSlice]

/-! ## Claim theorems -/

/-- C1: the claim says the request's `timeFrame.to` equals the caller-supplied
`to_time_ms` when provided.  In the code, the local `to_time` is only assigned
when `to_time_ms is None`, so a provided `to_time_ms` makes the request build
raise `UnboundLocalError` and no request ever reaches the API — contradicting
the tool's own docstring ("to timestamp in milliseconds … Defaults to now").
When `to_time_ms` is absent, the request is sent with `to` = current time in
milliseconds and `windowSize` = the `duration_ms` default 3600000. -/
theorem list_top_provided_to_time_never_reaches_api :
    (list_top_applications_by_performance Unit 1700000000000 (some "latency")
        (some 1618081200000) durationDefault (some 10) (some "MEAN")
        (some "desc") true (fun _ => Except.ok ())) =
      { requestSent := none, outcome := ToolOutcome.unboundLocalError "to_time" }
    ∧ (list_top_applications_by_performance Unit 1700000000000 (some "latency")
        none durationDefault (some 10) (some "MEAN") (some "desc") true
        (fun _ => Except.ok ())).requestSent =
      some { includeInternal := true
             includeSynthetic := true
             metrics := [{ aggregation := some "MEAN", metric := some "latency" }]
             timeFrame := { «to» := 1700000000000, windowSize := some 3600000 } } :=
  ⟨rfl, rfl⟩

/-- C2: the claim says a missing context (`ctx = None`) does not prevent the
ToolError.  In the code the handler calls `await ctx.error(...)`
unconditionally, so with `ctx = None` an `AttributeError` is raised before the
`raise ToolError` line — contradicting the code's own comment ("Send error
response via MCP context if available").  With a context present, the
ToolError does name `get_application_data_metrics_v2` and carries the
underlying exception text. -/
theorem list_top_ctx_none_attribute_error_not_tool_error :
    (list_top_applications_by_performance Unit 1700000000000 (some "latency")
        none durationDefault (some 10) (some "MEAN") (some "desc") false
        (fun _ => Except.error "boom")).outcome = ToolOutcome.attributeError
    ∧ (list_top_applications_by_performance Unit 1700000000000 (some "latency")
        none durationDefault (some 10) (some "MEAN") (some "desc") true
        (fun _ => Except.error "boom")).outcome =
      ToolOutcome.toolError
        "Instana API call [get_application_data_metrics_v2] error: boom" :=
  ⟨rfl, rfl⟩

/-- C3: in stdio mode (transport "stdio" or unspecified), a missing API token
or base URL makes startup exit with status 1 before `server.run` is reached;
in streamable-http mode the credential precondition is not checked at
startup. -/
theorem stdio_mode_exits_one_on_missing_credentials
    (transport tokenEnv baseUrlEnv : Option String) :
    ((transport = some "stdio" ∨ transport = none) →
      (tokenEnv = none ∨ baseUrlEnv = none) →
      stdioCredentialGate transport tokenEnv baseUrlEnv = some 1)
    ∧ stdioCredentialGate (some "streamable-http") tokenEnv baseUrlEnv = none := by
  constructor
  · intro ht hc
    have hv : validate_credentials tokenEnv baseUrlEnv = false := by
      rcases hc with rfl | rfl <;>
        simp [validate_credentials, getenvOrEmpty, strTruthy]
    rcases ht with rfl | rfl <;> simp [stdioCredentialGate, hv]
  · rw [stdioCredentialGate, if_neg (by simp)]

/-- Witness for C3 at a concrete input. -/
theorem stdio_mode_exits_one_on_missing_credentials_witness :
    stdioCredentialGate (some "stdio") none (some "https://instana.example") =
      some 1 :=
  (stdio_mode_exits_one_on_missing_credentials (some "stdio") none
    (some "https://instana.example")).1 (Or.inl rfl) (Or.inl rfl)

/-- C9: an empty-string credential is treated exactly like an unset one:
`validate_credentials` returns false, and the stdio startup gate exits with
status 1. -/
theorem validate_credentials_empty_string_is_absent (v : Option String) :
    validate_credentials (some "") v = false
    ∧ validate_credentials v (some "") = false
    ∧ validate_credentials (some "") v = validate_credentials none v
    ∧ validate_credentials v (some "") = validate_credentials v none
    ∧ stdioCredentialGate (some "stdio") (some "") v = some 1
    ∧ stdioCredentialGate none v (some "") = some 1 := by
  have h1 : validate_credentials (some "") v = false := by
    simp [validate_credentials, getenvOrEmpty, strTruthy]
  have h2 : validate_credentials v (some "") = false := by
    simp [validate_credentials, getenvOrEmpty, strTruthy]
  refine ⟨h1, h2, rfl, rfl, ?_, ?_⟩
  · simp [stdioCredentialGate, h1]
  · simp [stdioCredentialGate, h2]

/-- C10: the logging stage invokes the downstream handler exactly once (one
stream element consumed) and returns its outcome unchanged — a downstream
error propagates as-is — regardless of whether the pre-dispatch or
completion logging raises. -/
theorem on_message_calls_next_once_and_is_transparent
    (E R : Type) (preLogRaises postLogRaises : Bool)
    (d : Except E R) (rest : List (Except E R)) :
    on_message E R preLogRaises postLogRaises (d :: rest) = (some d, rest) := by
  cases d <;> rfl

/-- C4: with no category filter configured the tag-filter stage returns the
downstream tool list unchanged; with a (non-empty) configured category set it
returns exactly the tools whose tag set intersects the category set — the
code's check `bool(set(cats) & set(tool.tags))` is exactly non-empty
intersection — and the result is always a sublist of the input, so the
original relative order is preserved. -/
theorem on_list_tools_filter_semantics
    (categories : Option (List String)) (result : List ToolDesc) :
    (categories = none → on_list_tools categories result = result)
    ∧ (∀ c cs, categories = some (c :: cs) →
        on_list_tools categories result =
          result.filter (fun tool => tagsIntersect (c :: cs) tool.tags))
    ∧ List.Sublist (on_list_tools categories result) result
    ∧ (∀ cats tags, tagsIntersect cats tags = true ↔ ∃ x, x ∈ cats ∧ x ∈ tags) := by
  refine ⟨?_, ?_, ?_, ?_⟩
  · rintro rfl
    rfl
  · rintro c cs rfl
    simp [on_list_tools]
  · cases categories with
    | none => exact List.Sublist.refl _
    | some cats =>
      by_cases h : cats.isEmpty
      · simp [on_list_tools, h]
      · simp only [on_list_tools, h, if_neg]
        exact List.filter_sublist _
  · intro cats tags
    simp only [tagsIntersect, List.any_eq_true, List.contains_iff_exists_mem_beq,
      beq_iff_eq]
    constructor
    · rintro ⟨c, hc, a, ha, rfl⟩
      exact ⟨c, hc, ha⟩
    · rintro ⟨x, hx, ht⟩
      exact ⟨x, hx, x, ht, rfl⟩

/-- Witness for C4 at concrete inputs: the unfiltered case and a filtered
case exercising intersection and order. -/
theorem on_list_tools_filter_semantics_witness :
    on_list_tools none [⟨"a", ["infra"]⟩] = [⟨"a", ["infra"]⟩]
    ∧ on_list_tools (some ["infra"])
        [⟨"a", ["infra", "tool"]⟩, ⟨"b", ["app"]⟩] = [⟨"a", ["infra", "tool"]⟩] := by
  constructor
  · exact (on_list_tools_filter_semantics none [⟨"a", ["infra"]⟩]).1 rfl
  · have h := (on_list_tools_filter_semantics (some ["infra"])
      [⟨"a", ["infra", "tool"]⟩, ⟨"b", ["app"]⟩]).2.1 "infra" [] rfl
    rw [h]
    decide

/-- C5: the retry stage — fastmcp's RetryMiddleware, modelled from the spec
and configured by `run` with `max_retries=3` and
`retry_exceptions=(ConnectionError, TimeoutError)` — retries only connection
or timeout errors, making up to 3 retries (4 attempts) before surfacing the
failure, with a doubling (exponential) backoff delay between attempts; any
other exception kind surfaces immediately after a single attempt. -/
theorem retry_stage_retries_only_network_errors
    (α : Type) (outcomes : Nat → Except ExcKind α) (e : ExcKind)
    (baseMs k : Nat) :
    (outcomes 0 = Except.error e → isRetryableExc e = false →
      configuredRetry α outcomes = (Except.error e, 1))
    ∧ ((∀ n, outcomes n = Except.error e) → isRetryableExc e = true →
        configuredRetry α outcomes = (Except.error e, 4))
    ∧ backoffDelayMs baseMs (k + 1) = 2 * backoffDelayMs baseMs k := by
  refine ⟨?_, ?_, ?_⟩
  · intro h0 hr
    simp [configuredRetry, retryStage, h0, hr]
  · intro h hr
    simp [configuredRetry, retryStage, h, hr]
  · simp only [backoffDelayMs, Nat.pow_succ]
    ring

/-- Witness for C5 at concrete inputs: a non-network error surfaces with one
attempt; a persistent connection error surfaces after four attempts. -/
theorem retry_stage_retries_only_network_errors_witness :
    configuredRetry Unit (fun _ => Except.error (ExcKind.other "ValueError")) =
      (Except.error (ExcKind.other "ValueError"), 1)
    ∧ configuredRetry Unit (fun _ => Except.error ExcKind.connectionError) =
      (Except.error ExcKind.connectionError, 4) :=
  ⟨(retry_stage_retries_only_network_errors Unit
      (fun _ => Except.error (ExcKind.other "ValueError"))
      (ExcKind.other "ValueError") 1 0).1 rfl rfl,
   (retry_stage_retries_only_network_errors Unit
      (fun _ => Except.error ExcKind.connectionError)
      ExcKind.connectionError 1 0).2.1 (fun _ => rfl) rfl⟩

/-- C6: `_safe_dump` returns the JSON serialization unchanged when its length
is at most 100; when longer it returns the first 100 characters followed by
"...(truncated)" (total length 100 + 14, ending in that suffix); when JSON
serialization fails the plain string representation is used (subject to the
same truncation); when both fail the literal "<unserializable>" results. -/
theorem safe_dump_truncation_spec (jsonRepr strRepr : Option String)
    (s : String) :
    (jsonRepr = some s → s.length ≤ 100 → safe_dump jsonRepr strRepr 100 = s)
    ∧ (jsonRepr = some s → s.length > 100 →
        safe_dump jsonRepr strRepr 100 = strSlice s 100 ++ "...(truncated)"
        ∧ (safe_dump jsonRepr strRepr 100).length = 100 + 14
        ∧ ∃ p, safe_dump jsonRepr strRepr 100 = p ++ "...(truncated)")
    ∧ (safe_dump none (some s) 100 =
        if s.length > 100 then strSlice s 100 ++ "...(truncated)" else s)
    ∧ safe_dump none none 100 = "<unserializable>" := by
  refine ⟨?_, ?_, ?_, rfl⟩
  · rintro rfl h
    simp only [safe_dump]
    rw [if_neg (by omega)]
  · rintro rfl h
    have heq : safe_dump (some s) strRepr 100 =
        strSlice s 100 ++ "...(truncated)" := by
      simp only [safe_dump]
      rw [if_pos (by omega)]
    refine ⟨heq, ?_, ⟨strSlice s 100, heq⟩⟩
    rw [heq, string_length_append, strSlice_length]
    have hmin : min 100 s.length = 100 := by omega
    rw [hmin]
    decide
  · simp only [safe_dump]

/-- Witness for C6 at concrete inputs: a 250-character string is truncated to
length 114 ending in the suffix; a short string passes through unchanged. -/
theorem safe_dump_truncation_spec_witness :
    (safe_dump (some (String.mk (List.replicate 250 'a'))) none 100).length =
      100 + 14
    ∧ safe_dump (some (String.mk (List.replicate 250 'a'))) none 100 =
      String.mk (List.replicate 100 'a') ++ "...(truncated)"
    ∧ safe_dump (some "xy") none 100 = "xy" := by
  have hlong : (String.mk (List.replicate 250 'a')).length > 100 := by
    simp only [String.mk_length, List.length_replicate]
    omega
  have h := (safe_dump_truncation_spec
      (some (String.mk (List.replicate 250 'a'))) none
      (String.mk (List.replicate 250 'a'))).2.1 rfl hlong
  refine ⟨h.2.1, ?_, (safe_dump_truncation_spec (some "xy") none "xy").1 rfl
    (by decide)⟩
  rw [h.1]
  congr 1

/-- C7: a command line whose only argument is a help flag makes the process
exit with status 0 (whether or not displaying help raises); a command line
combining a help flag with any non-help argument makes the process exit with
status 2 inside the help block, before any server startup. -/
theorem main_help_flag_exit_codes (argv : List String) (h f : String)
    (helpDisplayFails : Bool) :
    (helpFlags.contains h = true → argv = [h] →
      mainHelpOutcome argv helpDisplayFails = some 0)
    ∧ (helpFlags.contains h = true → helpFlags.contains f = false →
        h ∈ argv → f ∈ argv →
        mainHelpOutcome argv helpDisplayFails = some 2) := by
  constructor
  · rintro hh rfl
    have hmemflags : h ∈ helpFlags := by simpa using hh
    simp only [mainHelpOutcome]
    rw [if_pos ⟨by simp, by simp [hmemflags]⟩, if_neg (by simp [hmemflags]),
      ite_self]
  · intro hh hf hmem hfmem
    have hfnot : f ∉ helpFlags := by simpa using hf
    have hcond : argv.length > 0 ∧
        argv.any (fun a => helpFlags.contains a) = true :=
      ⟨List.length_pos.mpr (List.ne_nil_of_mem hmem),
       List.any_eq_true.mpr ⟨h, hmem, hh⟩⟩
    have hne : argv.filter (fun a => !helpFlags.contains a) ≠ [] :=
      List.ne_nil_of_mem
        (List.mem_filter.mpr ⟨hfmem, by simp [hfnot]⟩)
    simp only [mainHelpOutcome]
    rw [if_pos hcond, if_pos hne]

/-- Witness for C7 at concrete command lines. -/
theorem main_help_flag_exit_codes_witness :
    mainHelpOutcome ["--help"] false = some 0
    ∧ mainHelpOutcome ["--help", "--tools"] true = some 2 :=
  ⟨(main_help_flag_exit_codes ["--help"] "--help" "x" false).1 rfl rfl,
   (main_help_flag_exit_codes ["--help", "--tools"] "--help" "--tools" true).2
     rfl rfl (by decide) (by decide)⟩

/-- C8: `run` registers exactly four middleware stages in the order logging,
tag-based tool filter, rate limiting (100 requests/second, burst capacity
20), retry (3 retries, on ConnectionError and TimeoutError), before the
transport starts; the transport is stdio unless the mode is
"streamable-http", which binds host 0.0.0.0 on the given port. -/
theorem run_pipeline_order_and_transport (mode : Option String) (port : Nat) :
    (run mode port).1 =
      [MiddlewareReg.logging, MiddlewareReg.tagBasedToolFilter,
       MiddlewareReg.rateLimiting 100 20, MiddlewareReg.retry 3 true true]
    ∧ (run mode port).1.length = 4
    ∧ (mode = some "streamable-http" →
        (run mode port).2 = TransportStart.http "0.0.0.0" port)
    ∧ (mode ≠ some "streamable-http" → (run mode port).2 = TransportStart.stdio) := by
  refine ⟨rfl, rfl, ?_, ?_⟩
  · rintro rfl
    rfl
  · intro hm
    simp [run, hm]

/-- Witness for C8 at concrete modes and port 8080. -/
theorem run_pipeline_order_and_transport_witness :
    (run (some "streamable-http") 8080).2 = TransportStart.http "0.0.0.0" 8080
    ∧ (run none 8080).2 = TransportStart.stdio :=
  ⟨(run_pipeline_order_and_transport (some "streamable-http") 8080).2.2.1 rfl,
   (run_pipeline_order_and_transport none 8080).2.2.2 (by simp)⟩

end McpInstana
